import Mathlib

set_option maxRecDepth 100000

/-!
Shallow embedding of the privacy-enforcement and result-caching core of the
`continuous_discovery_ai` repository.

Source files embedded:
- `src/discovery/privacy.py` (`enforce_pii_removal`, `validate_no_pii`,
  `audit_pii_in_transcript`)
- `src/discovery/analyzer.py` (`InterviewAnalyzer.analyze`)
- `src/discovery/models.py` (the pydantic insight models and their JSON
  serialization)
- `src/api.py` (`cache_key_for`, `load_demo_text`, `run_analysis`, `run_demo`)

Text is modelled as `List Char`.  A compiled regular expression from the
configuration file is modelled as an abstract deterministic matcher
(`Pat`): a function that, at a given position (suffix) of the text,
either matches a prefix of a given length or does not match.  The scanning
loops of Python's `re.sub`, `re.findall` and `re.search` over such a
matcher are implemented explicitly (`pySubGo`, `pyCountGo`, `pySearchGo`).
The concrete detection patterns live in `config/research_guidelines.yaml`,
which is not part of `src/`; representative concrete patterns are modelled
from the spec where a claim needs them.
-/

namespace Discovery

/-- A detection pattern, modelling a compiled regular expression from the
rule configuration.  `matchAt s` returns `some n` when the pattern matches
the first `n` characters of the suffix `s`, and `none` when the pattern
does not match at this position. -/
structure Pat where
  matchAt : List Char → Option Nat

/-- Models passing `flags=re.IGNORECASE` for a pattern whose literal
characters are written in lower case: the suffix is lowered before the
underlying matcher is consulted.  Lowering preserves length, so reported
match lengths remain valid positions of the original text. -/
def ciPat (p : Pat) : Pat :=
  ⟨fun s => p.matchAt (s.map Char.toLower)⟩

/-- Scanning loop of Python `re.sub(pattern, repl, text)`: left-to-right,
non-overlapping; at each position a match of length `n` is replaced by
`repl` and scanning resumes after the matched span (the `skip` argument
counts the remaining characters of a consumed span); a zero-width match
inserts `repl` and keeps the current character. -/
def pySubGo (m : List Char → Option Nat) (repl : List Char) :
    List Char → Nat → List Char
  | [], 0 =>
    match m [] with
    | some _ => repl
    | none => []
  | [], _ + 1 => []
  | c :: rest, 0 =>
    match m (c :: rest) with
    | some 0 => repl ++ c :: pySubGo m repl rest 0
    | some (n + 1) => repl ++ pySubGo m repl rest n
    | none => c :: pySubGo m repl rest 0
  | _ :: rest, s + 1 => pySubGo m repl rest s

/-- `re.sub` over a pattern. -/
def pySub (p : Pat) (repl : List Char) (text : List Char) : List Char :=
  pySubGo p.matchAt repl text 0

/-- Scanning loop of `len(re.findall(pattern, text))`: counts the
non-overlapping matches found by the same left-to-right scan. -/
def pyCountGo (m : List Char → Option Nat) : List Char → Nat → Nat
  | [], 0 =>
    match m [] with
    | some _ => 1
    | none => 0
  | [], _ + 1 => 0
  | c :: rest, 0 =>
    match m (c :: rest) with
    | some 0 => 1 + pyCountGo m rest 0
    | some (n + 1) => 1 + pyCountGo m rest n
    | none => pyCountGo m rest 0
  | _ :: rest, s + 1 => pyCountGo m rest s

/-- Number of non-overlapping matches of a pattern in a text. -/
def pyCount (p : Pat) (text : List Char) : Nat :=
  pyCountGo p.matchAt text 0

/-- Scanning loop of `re.search(pattern, text) is not None`: does the
pattern match at any position of the text? -/
def pySearchGo (m : List Char → Option Nat) : List Char → Bool
  | [] => (m []).isSome
  | c :: rest => (m (c :: rest)).isSome || pySearchGo m rest

/-- `re.search` over a pattern, as a Boolean. -/
def pySearch (p : Pat) (text : List Char) : Bool :=
  pySearchGo p.matchAt text

/-- The six detection patterns of the rule configuration, one per PII
category (`privacy_rules['pii_removal']['patterns']`). -/
structure PiiPatterns where
  api_token : Pat
  iban : Pat
  email : Pat
  phone : Pat
  employee_id : Pat
  names : Pat

/-- The six replacement tokens of the rule configuration
(`privacy_rules['pii_removal']['replacement_tokens']`). -/
structure PiiReplacements where
  api_token : List Char
  iban : List Char
  email : List Char
  phone : List Char
  employee_id : List Char
  names : List Char

/-- The `pii_removal` section of the rule configuration. -/
structure PiiRemoval where
  enabled : Bool
  patterns : PiiPatterns
  replacement_tokens : PiiReplacements

/-- The `privacy_enforcement` dictionary handed to the privacy functions
(`privacy_rules` in `src/discovery/privacy.py`). -/
structure PrivacyRules where
  pii_removal : PiiRemoval

/-- Translation of `enforce_pii_removal(text, privacy_rules)` from
`src/discovery/privacy.py`: identity when the rules are disabled,
otherwise six sequential `re.sub` passes over the whole string in the
order api_token, iban, email, phone, employee_id, names, with the email
and employee_id passes using `flags=re.IGNORECASE`. -/
def enforce_pii_removal (text : List Char) (privacy_rules : PrivacyRules) : List Char :=
  if !privacy_rules.pii_removal.enabled then text
  else
    let patterns := privacy_rules.pii_removal.patterns
    let replacements := privacy_rules.pii_removal.replacement_tokens
    let text := pySub patterns.api_token replacements.api_token text
    let text := pySub patterns.iban replacements.iban text
    let text := pySub (ciPat patterns.email) replacements.email text
    let text := pySub patterns.phone replacements.phone text
    let text := pySub (ciPat patterns.employee_id) replacements.employee_id text
    let text := pySub patterns.names replacements.names text
    text

/-- A pain point record (`PainPoint` in `src/discovery/models.py`). -/
structure PainPoint where
  description : String
  impact : String
  quote : String
deriving DecidableEq, Repr

/-- A job-to-be-done record (`JobToBeDone` in `src/discovery/models.py`). -/
structure JobToBeDone where
  functional_job : String
  emotional_job : String
  context : String
  quote : String
deriving DecidableEq, Repr

/-- A workaround record (`Workaround` in `src/discovery/models.py`). -/
structure Workaround where
  what_they_do : String
  why_needed : String
  cost : String
  quote : String
deriving DecidableEq, Repr

/-- A desired outcome record (`DesiredOutcome` in `src/discovery/models.py`). -/
structure DesiredOutcome where
  outcome : String
  current_gap : String
  quote : String
deriving DecidableEq, Repr

/-- A behavioral signal record (`BehavioralSignal` in `src/discovery/models.py`). -/
structure BehavioralSignal where
  observation : String
  what_it_reveals : String
  quote : String
deriving DecidableEq, Repr

/-- A mental model record (`MentalModel` in `src/discovery/models.py`). -/
structure MentalModel where
  description : String
  metaphor_or_analogy : Option String
  mismatch_with_reality : Option String
  quote : String
deriving DecidableEq, Repr

/-- All insights extracted from one interview (`InterviewInsights` in
`src/discovery/models.py`). -/
structure InterviewInsights where
  pain_points : List PainPoint
  jobs_to_be_done : List JobToBeDone
  workarounds : List Workaround
  desired_outcomes : List DesiredOutcome
  behavioral_signals : List BehavioralSignal
  mental_models : List MentalModel
deriving DecidableEq, Repr

/-- JSON escaping of one character, as pydantic's compact JSON emitter
performs it for the characters that occur in these records. -/
def jsonEscapeChar (c : Char) : List Char :=
  if c = '"' then ['\\', '"']
  else if c = '\\' then ['\\', '\\']
  else if c = '\n' then ['\\', 'n']
  else if c = '\t' then ['\\', 't']
  else if c = '\r' then ['\\', 'r']
  else [c]

/-- JSON string literal for a field value. -/
def jsonStr (s : String) : String :=
  "\"" ++ String.mk ((s.toList.map jsonEscapeChar).flatten) ++ "\""

/-- JSON value for an optional field (`null` when absent). -/
def jsonOpt (s : Option String) : String :=
  match s with
  | none => "null"
  | some v => jsonStr v

/-- JSON array from already-serialized elements. -/
def jsonArr (items : List String) : String :=
  "[" ++ String.intercalate "," items ++ "]"

/-- Compact JSON object for a `PainPoint`, fields in declaration order. -/
def PainPoint.json (p : PainPoint) : String :=
  "\x7b\"description\":" ++ jsonStr p.description ++
  ",\"impact\":" ++ jsonStr p.impact ++
  ",\"quote\":" ++ jsonStr p.quote ++ "\x7d"

/-- Compact JSON object for a `JobToBeDone`, fields in declaration order. -/
def JobToBeDone.json (j : JobToBeDone) : String :=
  "\x7b\"functional_job\":" ++ jsonStr j.functional_job ++
  ",\"emotional_job\":" ++ jsonStr j.emotional_job ++
  ",\"context\":" ++ jsonStr j.context ++
  ",\"quote\":" ++ jsonStr j.quote ++ "\x7d"

/-- Compact JSON object for a `Workaround`, fields in declaration order. -/
def Workaround.json (w : Workaround) : String :=
  "\x7b\"what_they_do\":" ++ jsonStr w.what_they_do ++
  ",\"why_needed\":" ++ jsonStr w.why_needed ++
  ",\"cost\":" ++ jsonStr w.cost ++
  ",\"quote\":" ++ jsonStr w.quote ++ "\x7d"

/-- Compact JSON object for a `DesiredOutcome`, fields in declaration order. -/
def DesiredOutcome.json (d : DesiredOutcome) : String :=
  "\x7b\"outcome\":" ++ jsonStr d.outcome ++
  ",\"current_gap\":" ++ jsonStr d.current_gap ++
  ",\"quote\":" ++ jsonStr d.quote ++ "\x7d"

/-- Compact JSON object for a `BehavioralSignal`, fields in declaration order. -/
def BehavioralSignal.json (b : BehavioralSignal) : String :=
  "\x7b\"observation\":" ++ jsonStr b.observation ++
  ",\"what_it_reveals\":" ++ jsonStr b.what_it_reveals ++
  ",\"quote\":" ++ jsonStr b.quote ++ "\x7d"

/-- Compact JSON object for a `MentalModel`, fields in declaration order. -/
def MentalModel.json (m : MentalModel) : String :=
  "\x7b\"description\":" ++ jsonStr m.description ++
  ",\"metaphor_or_analogy\":" ++ jsonOpt m.metaphor_or_analogy ++
  ",\"mismatch_with_reality\":" ++ jsonOpt m.mismatch_with_reality ++
  ",\"quote\":" ++ jsonStr m.quote ++ "\x7d"

/-- Canonical textual serialization of an `InterviewInsights` record:
pydantic's `insights.model_dump_json()`, compact separators, fields in
declaration order. -/
def model_dump_json (i : InterviewInsights) : String :=
  "\x7b\"pain_points\":" ++ jsonArr (i.pain_points.map PainPoint.json) ++
  ",\"jobs_to_be_done\":" ++ jsonArr (i.jobs_to_be_done.map JobToBeDone.json) ++
  ",\"workarounds\":" ++ jsonArr (i.workarounds.map Workaround.json) ++
  ",\"desired_outcomes\":" ++ jsonArr (i.desired_outcomes.map DesiredOutcome.json) ++
  ",\"behavioral_signals\":" ++ jsonArr (i.behavioral_signals.map BehavioralSignal.json) ++
  ",\"mental_models\":" ++ jsonArr (i.mental_models.map MentalModel.json) ++ "\x7d"

/-- The blocking failure raised by `validate_no_pii`
(`raise ValueError("PII VALIDATION FAILED - output blocked for compliance")`),
carrying the warning lines printed for every category found. -/
structure PiiValidationFailure where
  issues : List String
  message : String
deriving DecidableEq, Repr

/-- The list of issues `validate_no_pii` collects: one entry per category
of email, phone, employee_id whose pattern is found (by `re.search`,
no IGNORECASE flag) in the serialized record, in that order. -/
def validationIssues (insights : InterviewInsights) (privacy_rules : PrivacyRules) :
    List String :=
  let all_text := (model_dump_json insights).toList
  let patterns := privacy_rules.pii_removal.patterns
  (if pySearch patterns.email all_text then ["EMAIL detected in output"] else []) ++
  (if pySearch patterns.phone all_text then ["PHONE NUMBER detected in output"] else []) ++
  (if pySearch patterns.employee_id all_text then ["EMPLOYEE ID detected in output"] else [])

/-- Translation of `validate_no_pii(insights, privacy_rules)` from
`src/discovery/privacy.py`: serializes the record, searches the email,
phone and employee_id patterns against the serialization, and on any
find logs every issue and raises (modelled as `Except.error` carrying the
issues); otherwise returns `true`. -/
def validate_no_pii (insights : InterviewInsights) (privacy_rules : PrivacyRules) :
    Except PiiValidationFailure Bool :=
  let issues := validationIssues insights privacy_rules
  if issues = [] then Except.ok true
  else Except.error ⟨issues, "PII VALIDATION FAILED - output blocked for compliance"⟩

/-- Translation of `audit_pii_in_transcript(text, privacy_rules)` from
`src/discovery/privacy.py`: per-category non-overlapping match counts on
the given text, in the declared reporting order of the `findings` dict. -/
def audit_pii_in_transcript (text : List Char) (privacy_rules : PrivacyRules) :
    List (String × Nat) :=
  let patterns := privacy_rules.pii_removal.patterns
  [("Emails", pyCount patterns.email text),
   ("Phone Numbers", pyCount patterns.phone text),
   ("Employee IDs", pyCount patterns.employee_id text),
   ("Names", pyCount patterns.names text),
   ("IBANs", pyCount patterns.iban text),
   ("API Tokens", pyCount patterns.api_token text)]

/-- The orchestrator object (`InterviewAnalyzer` in
`src/discovery/analyzer.py`): its privacy rules and the external
extraction capability (`self.agent.run`, returning the structured
record for a sanitized transcript). -/
structure InterviewAnalyzer where
  privacy_rules : PrivacyRules
  agentRun : List Char → InterviewInsights

/-- Decidable equality for `Except` outcomes, so concrete runs of the
embedded functions can be checked by `decide`. -/
instance exceptDecEq {ε α : Type} [DecidableEq ε] [DecidableEq α] :
    DecidableEq (Except ε α) := fun x y =>
  match x, y with
  | Except.error a, Except.error b =>
    if h : a = b then Decidable.isTrue (by rw [h])
    else Decidable.isFalse (by intro hc; cases hc; exact h rfl)
  | Except.error _, Except.ok _ => Decidable.isFalse (by intro hc; cases hc)
  | Except.ok _, Except.error _ => Decidable.isFalse (by intro hc; cases hc)
  | Except.ok a, Except.ok b =>
    if h : a = b then Decidable.isTrue (by rw [h])
    else Decidable.isFalse (by intro hc; cases hc; exact h rfl)

/-- The two observable outcomes of one `analyze` call: the audit summary
emitted to the logging boundary (when auditing was requested) and the
returned record or blocking validation failure. -/
structure AnalyzeOut where
  auditReport : Option (List (String × Nat))
  result : Except PiiValidationFailure InterviewInsights
deriving DecidableEq, Repr

/-- Translation of `InterviewAnalyzer.analyze(transcript, audit, validate)`
from `src/discovery/analyzer.py`: optional audit of the original
transcript (log only), mandatory redaction, extraction on the sanitized
text, optional blocking validation of the extracted record. -/
def InterviewAnalyzer.analyze (self : InterviewAnalyzer) (transcript : List Char)
    (audit : Bool) (validate : Bool) : AnalyzeOut :=
  let report :=
    if audit then some (audit_pii_in_transcript transcript self.privacy_rules) else none
  let clean_transcript := enforce_pii_removal transcript self.privacy_rules
  let insights := self.agentRun clean_transcript
  if validate then
    match validate_no_pii insights self.privacy_rules with
    | Except.error f => ⟨report, Except.error f⟩
    | Except.ok _ => ⟨report, Except.ok insights⟩
  else ⟨report, Except.ok insights⟩

/-- Right rotation of a 32-bit word. -/
def rotr32 (x n : Nat) : Nat :=
  ((x >>> n) ||| (x <<< (32 - n))) % 4294967296

/-- SHA-256 message-schedule sigma-0. -/
def smallSigma0 (x : Nat) : Nat := rotr32 x 7 ^^^ rotr32 x 18 ^^^ (x >>> 3)

/-- SHA-256 message-schedule sigma-1. -/
def smallSigma1 (x : Nat) : Nat := rotr32 x 17 ^^^ rotr32 x 19 ^^^ (x >>> 10)

/-- SHA-256 compression Sigma-0. -/
def bigSigma0 (x : Nat) : Nat := rotr32 x 2 ^^^ rotr32 x 13 ^^^ rotr32 x 22

/-- SHA-256 compression Sigma-1. -/
def bigSigma1 (x : Nat) : Nat := rotr32 x 6 ^^^ rotr32 x 11 ^^^ rotr32 x 25

/-- The 64 SHA-256 round constants (decimal). -/
def K256 : List Nat :=
  [1116352408, 1899447441, 3049323471, 3921009573, 961987163, 1508970993,
   2453635748, 2870763221, 3624381080, 310598401, 607225278, 1426881987,
   1925078388, 2162078206, 2614888103, 3248222580, 3835390401, 4022224774,
   264347078, 604807628, 770255983, 1249150122, 1555081692, 1996064986,
   2554220882, 2821834349, 2952996808, 3210313671, 3336571891, 3584528711,
   113926993, 338241895, 666307205, 773529912, 1294757372, 1396182291,
   1695183700, 1986661051, 2177026350, 2456956037, 2730485921, 2820302411,
   3259730800, 3345764771, 3516065817, 3600352804, 4094571909, 275423344,
   430227734, 506948616, 659060556, 883997877, 958139571, 1322822218,
   1537002063, 1747873779, 1955562222, 2024104815, 2227730452, 2361852424,
   2428436474, 2756734187, 3204031479, 3329325298]

/-- The 8 initial SHA-256 hash words (decimal). -/
def H256 : List Nat :=
  [1779033703, 3144134277, 1013904242, 2773480762,
   1359893119, 2600822924, 528734635, 1541459225]

/-- SHA-256 padding of a byte message: append 0x80, zero bytes up to 56 mod
64, then the bit length as 8 big-endian bytes. -/
def sha256Pad (msg : List Nat) : List Nat :=
  let len := msg.length
  let bitLen := 8 * len
  let padZeros := (119 - len % 64) % 64
  msg ++ 0x80 :: List.replicate padZeros 0 ++
    [(bitLen >>> 56) % 256, (bitLen >>> 48) % 256, (bitLen >>> 40) % 256,
     (bitLen >>> 32) % 256, (bitLen >>> 24) % 256, (bitLen >>> 16) % 256,
     (bitLen >>> 8) % 256, bitLen % 256]

/-- Helper of `chunksOf64`: collect bytes into a reversed running block
and emit it each time it reaches 64 bytes. -/
def chunksAux (acc : List Nat) : List Nat → List (List Nat)
  | [] => if acc.isEmpty then [] else [acc.reverse]
  | b :: rest =>
    if acc.length = 63 then (b :: acc).reverse :: chunksAux [] rest
    else chunksAux (b :: acc) rest

/-- Split a byte list into 64-byte blocks. -/
def chunksOf64 (l : List Nat) : List (List Nat) :=
  chunksAux [] l

/-- Combine bytes into big-endian 32-bit words. -/
def bytesToWords : List Nat → List Nat
  | b0 :: b1 :: b2 :: b3 :: rest =>
    ((b0 <<< 24) ||| (b1 <<< 16) ||| (b2 <<< 8) ||| b3) :: bytesToWords rest
  | _ => []

/-- Extend the 16 block words by `n` further message-schedule words. -/
def extendWords (w : List Nat) : Nat → List Nat
  | 0 => w
  | n + 1 =>
    let next :=
      (smallSigma1 (w.getD (w.length - 2) 0) + w.getD (w.length - 7) 0 +
       smallSigma0 (w.getD (w.length - 15) 0) + w.getD (w.length - 16) 0) % 4294967296
    extendWords (w ++ [next]) n

/-- One SHA-256 round: state `[a,b,c,d,e,f,g,h]` with a round constant and a
schedule word. -/
def compressStep (st : List Nat) (kw : Nat × Nat) : List Nat :=
  match st with
  | [a, b, c, d, e, f, g, hh] =>
    let s1 := bigSigma1 e
    let ch := (e &&& f) ^^^ ((e ^^^ 0xffffffff) &&& g)
    let t1 := (hh + s1 + ch + kw.1 + kw.2) % 4294967296
    let s0 := bigSigma0 a
    let mj := (a &&& b) ^^^ (a &&& c) ^^^ (b &&& c)
    let t2 := (s0 + mj) % 4294967296
    [(t1 + t2) % 4294967296, a, b, c, (d + t1) % 4294967296, e, f, g]
  | _ => st

/-- SHA-256 compression of one 16-word block into the running hash. -/
def compressBlock (h : List Nat) (block : List Nat) : List Nat :=
  let w := extendWords block 48
  let st := (K256.zip w).foldl compressStep h
  List.zipWith (fun x y => (x + y) % 4294967296) h st

/-- SHA-256 digest of a byte message, as 8 32-bit words. -/
def sha256Words (msg : List Nat) : List Nat :=
  (chunksOf64 (sha256Pad msg)).foldl (fun h block => compressBlock h (bytesToWords block)) H256

/-- One lower-case hexadecimal digit. -/
def hexDigitChar (n : Nat) : Char :=
  if n < 10 then Char.ofNat (48 + n) else Char.ofNat (87 + n)

/-- Eight lower-case hexadecimal digits of a 32-bit word. -/
def wordToHex (x : Nat) : List Char :=
  [hexDigitChar ((x >>> 28) % 16), hexDigitChar ((x >>> 24) % 16),
   hexDigitChar ((x >>> 20) % 16), hexDigitChar ((x >>> 16) % 16),
   hexDigitChar ((x >>> 12) % 16), hexDigitChar ((x >>> 8) % 16),
   hexDigitChar ((x >>> 4) % 16), hexDigitChar (x % 16)]

/-- `hashlib.sha256(bytes).hexdigest()`. -/
def sha256hex (msg : List Nat) : String :=
  String.mk ((sha256Words msg).map wordToHex).flatten

/-- `hashlib.sha256(bytes).hexdigest()[:16]`: the first 16 hex digits
(all ASCII, so slicing the digest string is slicing its characters). -/
def sha256hex16 (msg : List Nat) : String :=
  String.mk (((sha256Words msg).map wordToHex).flatten.take 16)

/-- UTF-8 encoding of one character. -/
def utf8Encode (c : Char) : List Nat :=
  let n := c.toNat
  if n < 0x80 then [n]
  else if n < 0x800 then
    [0xc0 ||| (n >>> 6), 0x80 ||| (n &&& 0x3f)]
  else if n < 0x10000 then
    [0xe0 ||| (n >>> 12), 0x80 ||| ((n >>> 6) &&& 0x3f), 0x80 ||| (n &&& 0x3f)]
  else
    [0xf0 ||| (n >>> 18), 0x80 ||| ((n >>> 12) &&& 0x3f),
     0x80 ||| ((n >>> 6) &&& 0x3f), 0x80 ||| (n &&& 0x3f)]

/-- `s.encode("utf-8")` of a string. -/
def utf8Bytes (s : String) : List Nat :=
  (s.toList.map utf8Encode).flatten

/-- The raw fingerprint input assembled by `cache_key_for` in `src/api.py`:
`f"{variant}::{guidelines_key}::{text}"`. -/
def cache_key_raw (text guidelines_key variant : String) : String :=
  variant ++ "::" ++ guidelines_key ++ "::" ++ text

/-- Translation of `cache_key_for(text, guidelines_key, variant)` from
`src/api.py`: the first 16 hex digits of the SHA-256 of the raw string
`variant::guidelines_key::text`. -/
def cache_key_for (text guidelines_key variant : String) : String :=
  sha256hex16 (utf8Bytes (cache_key_raw text guidelines_key variant))

/-- An HTTP error response (`HTTPException(status, detail)`). -/
structure HTTPError where
  status : Nat
  detail : String
deriving DecidableEq, Repr

/-- The `mode` query parameter of `/demo/run` (`enum=["auto","cached","live"]`). -/
inductive Mode
  | auto
  | cached
  | live
deriving DecidableEq, Repr

/-- The parse result of an existing cache file, as `run_demo` consumes it:
`data.get("key")` and `data["insights"]` (absent `insights` raises inside
the guarded block and is treated as a read failure). -/
structure CacheData where
  key : Option String
  insights : Option InterviewInsights
deriving DecidableEq, Repr

/-- The JSON object `run_demo` writes back to the cache file:
`{key, variant, insights, cached_at}`. -/
structure CacheEntry where
  key : String
  variant : String
  insights : InterviewInsights
  cached_at : Nat
deriving DecidableEq, Repr

/-- The JSON body `run_demo` returns on success:
`{run_id, variant, cached, steps, insights}`. -/
structure DemoResponse where
  run_id : String
  variant : String
  cached : Bool
  steps : List String
  insights : InterviewInsights
deriving DecidableEq, Repr

/-- The observable outcome of one `/demo/run` request: the HTTP response,
whether the live analysis pipeline (and with it the external extraction
capability) was invoked, and the cache entry written, if any. -/
structure RunDemoOut where
  response : Except HTTPError DemoResponse
  extractionInvoked : Bool
  cacheWritten : Option CacheEntry
deriving DecidableEq, Repr

/-- Translation of `load_demo_text(variant)` from `src/api.py`: 400 for a
variant outside `VARIANT_MAP`, 500 for a missing file, otherwise the file
text.  `files` models the on-disk content of `data/interviews/`. -/
def load_demo_text (files : String → Option String) (variant : String) :
    Except HTTPError String :=
  if !(variant = "sanitized" || variant = "sensitive") then
    Except.error ⟨400, "Unknown variant '" ++ variant ++ "'."⟩
  else
    match files variant with
    | none => Except.error ⟨500, "Variant '" ++ variant ++ "' file missing."⟩
    | some t => Except.ok t

/-- Translation of `run_analysis(text)` from `src/api.py`: run the analyzer
with `audit=True, validate=True`; any analysis failure surfaces as an HTTP
500 with an `analysis_error` detail. -/
def run_analysis (analyzer : InterviewAnalyzer) (text : List Char) :
    Except HTTPError InterviewInsights :=
  match (analyzer.analyze text true true).result with
  | Except.ok ins => Except.ok ins
  | Except.error f => Except.error ⟨500, "analysis_error: " ++ f.message⟩

/-- The guarded cached branch of `run_demo`: consult the cache only when
`mode in ("auto", "cached")` and the cache file exists; a parse failure or
a stored `key` field disagreeing with the requested key (or a missing
`insights` field) is a miss. -/
def cacheLookup (cacheRead : Option (Except Unit CacheData)) (mode : Mode)
    (key : String) : Option InterviewInsights :=
  if (mode = Mode.auto ∨ mode = Mode.cached) ∧ cacheRead.isSome then
    match cacheRead with
    | some (Except.ok d) => if d.key = some key then d.insights else none
    | _ => none
  else none

/-- Translation of the `/demo/run` handler `run_demo` from `src/api.py`.
`cacheRead` models the state of the cache file: `none` when the file does
not exist, `some (Except.error ())` when reading or parsing it raises, and
`some (Except.ok d)` for a parsed JSON object `d`.  `writeOk` models
whether the cache write succeeds; `now` is `time.time()`. -/
def run_demo (analyzer : InterviewAnalyzer) (files : String → Option String)
    (cacheRead : Option (Except Unit CacheData)) (writeOk : Bool) (now : Nat)
    (mode : Mode) (variant : String) (x_demo_session : Option String) : RunDemoOut :=
  if x_demo_session.getD "" = "" then
    ⟨Except.error ⟨400, "Missing session header 'x-demo-session'."⟩, false, none⟩
  else
    match load_demo_text files variant with
    | Except.error e => ⟨Except.error e, false, none⟩
    | Except.ok text =>
      let guidelines_key := ""
      let key := cache_key_for text guidelines_key variant
      let run_id := "demo-" ++ variant ++ "-" ++ key
      match cacheLookup cacheRead mode key with
      | some ins =>
        ⟨Except.ok ⟨run_id, variant, true,
          ["Loading cached insights", "Rendering…", "Done"], ins⟩, false, none⟩
      | none =>
        let steps := ["Reading transcript", "Extracting insights",
                      "Validating schema", "Preparing export"]
        match run_analysis analyzer text.toList with
        | Except.error e => ⟨Except.error e, true, none⟩
        | Except.ok insights =>
          let written := if writeOk then some (⟨key, variant, insights, now⟩ : CacheEntry) else none
          ⟨Except.ok ⟨run_id, variant, false, steps ++ ["Done"], insights⟩, true, written⟩

/-- Matcher for a literal word: matches exactly the word `w` at the
current position. -/
def litPat (w : List Char) : Pat :=
  ⟨fun s => if w.isPrefixOf s then some w.length else none⟩

/-- Character class of the local part of the modelled email pattern
(lower-case letters, digits, and the usual local-part punctuation). -/
def isLocalChar (c : Char) : Bool :=
  c.isLower || c.isDigit || c = '.' || c = '_' || c = '%' || c = '+' || c = '-'

/-- Character class of the domain part of the modelled email pattern. -/
def isDomainChar (c : Char) : Bool :=
  c.isLower || c.isDigit || c = '.' || c = '-'

/-- Modelled from the spec: the email detection pattern of the rule
configuration (`config/research_guidelines.yaml`, not under `src/`).  A
case-sensitive lower-case email regex — a nonempty run of local-part
characters, an `@`, and a nonempty run of domain characters — consistent
with the spec's examples `john@example.com` and `jane@example.com`. -/
def emailPat : Pat :=
  ⟨fun s =>
    let lo := s.takeWhile isLocalChar
    if lo.isEmpty then none
    else
      match s.drop lo.length with
      | '@' :: rest =>
        let dom := rest.takeWhile isDomainChar
        if dom.isEmpty then none else some (lo.length + 1 + dom.length)
      | _ => none⟩

/-- Modelled from the spec: the phone detection pattern of the rule
configuration (not under `src/`), matching `NNN-NNN-NNNN` per the spec's
example `555-123-4567`. -/
def phonePat : Pat :=
  ⟨fun s =>
    match s with
    | a :: b :: c :: '-' :: d :: e :: f :: '-' :: u :: v :: x :: y :: _ =>
      if (a.isDigit && b.isDigit && c.isDigit && d.isDigit && e.isDigit &&
          f.isDigit && u.isDigit && v.isDigit && x.isDigit && y.isDigit) then
        some 12
      else none
    | _ => none⟩

/-- Modelled from the spec: the employee-id detection pattern of the rule
configuration (not under `src/`): a lower-case `emp-` tag followed by one
or more digits. -/
def empidPat : Pat :=
  ⟨fun s =>
    if ['e', 'm', 'p', '-'].isPrefixOf s then
      let ds := (s.drop 4).takeWhile Char.isDigit
      if ds.isEmpty then none else some (4 + ds.length)
    else none⟩

/-- Modelled from the spec: a representative pattern set for the six fixed
categories, standing in for `config/research_guidelines.yaml` (not under
`src/`); api_token, iban and names are literal matchers. -/
def demoPatterns : PiiPatterns :=
  ⟨litPat "sk-demo-secret".toList,
   litPat "DE89370400440532013000".toList,
   emailPat,
   phonePat,
   empidPat,
   litPat "John Doe".toList⟩

/-- Modelled from the spec: replacement tokens for the six categories. -/
def demoReplacements : PiiReplacements :=
  ⟨"[API_TOKEN]".toList, "[IBAN]".toList, "[EMAIL]".toList,
   "[PHONE]".toList, "[EMPLOYEE_ID]".toList, "[NAME]".toList⟩

/-- A concrete enabled rule set over the modelled patterns. -/
def demoRules : PrivacyRules :=
  ⟨⟨true, demoPatterns, demoReplacements⟩⟩

/-- The same rule set with the global enable flag off. -/
def demoRulesDisabled : PrivacyRules :=
  ⟨⟨false, demoPatterns, demoReplacements⟩⟩

/-- A record with no findings at all. -/
def emptyInsights : InterviewInsights := ⟨[], [], [], [], [], []⟩

/-- A record whose evidence quote contains the literal
`jane@example.com`, per the spec's fail-closed validation scenario. -/
def janeInsights : InterviewInsights :=
  ⟨[⟨"Slow tooling", "Hours lost weekly", "Ask jane@example.com about it"⟩],
   [], [], [], [], []⟩

/-- A record whose evidence quote contains an upper-case email address. -/
def upperInsights : InterviewInsights :=
  ⟨[⟨"Slow tooling", "Hours lost weekly", "Reach JANE@EXAMPLE.COM today"⟩],
   [], [], [], [], []⟩

/-- A transcript containing an upper-case email address. -/
def upperEmailText : List Char := "Contact JANE@EXAMPLE.COM today".toList

/-- A demo analyzer: the modelled rules together with an extraction
capability that returns the empty record. -/
def demoAnalyzer : InterviewAnalyzer := ⟨demoRules, fun _ => emptyInsights⟩

/-- On-disk demo transcripts of `data/interviews/`, with only the
`sanitized` variant present. -/
def demoFiles : String → Option String :=
  fun v => if v = "sanitized" then some "hello world" else none

/-- The six PII categories of the rule set (spec §3). -/
inductive PiiCategory
  | api_token
  | iban
  | email
  | phone
  | employee_id
  | names
deriving DecidableEq, Repr

/-- The pattern a rule set holds for a category. -/
def patternFor (rules : PrivacyRules) (c : PiiCategory) : Pat :=
  match c with
  | PiiCategory.api_token => rules.pii_removal.patterns.api_token
  | PiiCategory.iban => rules.pii_removal.patterns.iban
  | PiiCategory.email => rules.pii_removal.patterns.email
  | PiiCategory.phone => rules.pii_removal.patterns.phone
  | PiiCategory.employee_id => rules.pii_removal.patterns.employee_id
  | PiiCategory.names => rules.pii_removal.patterns.names

/-- The reporting label `audit_pii_in_transcript` uses for a category. -/
def auditLabel : PiiCategory → String
  | PiiCategory.api_token => "API Tokens"
  | PiiCategory.iban => "IBANs"
  | PiiCategory.email => "Emails"
  | PiiCategory.phone => "Phone Numbers"
  | PiiCategory.employee_id => "Employee IDs"
  | PiiCategory.names => "Names"

/-- The substitution a single rule performs on a whole string: the
category's `re.sub` pass exactly as `enforce_pii_removal` issues it
(email and employee_id case-insensitively). -/
def substFor (rules : PrivacyRules) (c : PiiCategory) (text : List Char) : List Char :=
  let ps := rules.pii_removal.patterns
  let rs := rules.pii_removal.replacement_tokens
  match c with
  | PiiCategory.api_token => pySub ps.api_token rs.api_token text
  | PiiCategory.iban => pySub ps.iban rs.iban text
  | PiiCategory.email => pySub (ciPat ps.email) rs.email text
  | PiiCategory.phone => pySub ps.phone rs.phone text
  | PiiCategory.employee_id => pySub (ciPat ps.employee_id) rs.employee_id text
  | PiiCategory.names => pySub ps.names rs.names text

/-- The FIXED declared substitution order of spec §4.2. -/
def redactOrder : List PiiCategory :=
  [PiiCategory.api_token, PiiCategory.iban, PiiCategory.email,
   PiiCategory.phone, PiiCategory.employee_id, PiiCategory.names]

/-- Spec-side redaction (spec §4.2, written from the spec's words, to be
compared with `enforce_pii_removal`): fold the per-rule substitutions over
the declared order, each operating on the output of the previous one. -/
def redact_spec (text : List Char) (rules : PrivacyRules) : List Char :=
  redactOrder.foldl (fun t c => substFor rules c t) text

/-- C3 counterexample: two requests whose input triples differ in both
`variant_id` and `guideline_fingerprint` nevertheless receive the same
cache key, because the `::`-joined raw strings coincide — refuting "for
every two triples differing in at least one component the keys differ". -/
theorem cache_key_collision_on_separator :
    ("a::b", "c", "d") ≠ ("a", "b::c", "d") ∧
    cache_key_for "d" "c" "a::b" = cache_key_for "d" "b::c" "a" := by
  constructor
  · decide
  · have h : cache_key_raw "d" "c" "a::b" = cache_key_raw "d" "b::c" "a" := by decide
    unfold cache_key_for
    rw [h]

/-- C3 (amended): the cache fingerprint is a pure function — equal input
triples always yield equal keys — and the key depends only on the
assembled raw string `variant::guideline::text`; triples differing in a
component may therefore collide when a component contains the `::`
separator. -/
theorem cache_key_pure_function (t g v t' g' v' : String) :
    (t = t' → g = g' → v = v' → cache_key_for t g v = cache_key_for t' g' v') ∧
    (cache_key_raw t g v = cache_key_raw t' g' v' →
      cache_key_for t g v = cache_key_for t' g' v') := by
  constructor
  · intro h1 h2 h3
    rw [h1, h2, h3]
  · intro h
    unfold cache_key_for
    rw [h]

/-- Witness for `cache_key_pure_function` at a concrete triple. -/
theorem cache_key_pure_function_witness :
    cache_key_for "hello world" "" "sanitized" = cache_key_for "hello world" "" "sanitized" :=
  (cache_key_pure_function "hello world" "" "sanitized" "hello world" "" "sanitized").1
    rfl rfl rfl

/-- C4: for every input text and every enabled rule set, redaction is the
fold of the six per-rule substitutions over the fixed declared order
[api_token, iban, email, phone, employee_id, names], each substitution
operating on the output of the previous one; and it is deterministic (a
pure function of its two arguments, with no side effects in the
embedding). -/
theorem redact_applies_rules_in_fixed_order (text : List Char) (rules : PrivacyRules)
    (h : rules.pii_removal.enabled = true) :
    enforce_pii_removal text rules = redact_spec text rules ∧
    (∀ (text' : List Char) (rules' : PrivacyRules),
      text' = text → rules' = rules →
      enforce_pii_removal text' rules' = enforce_pii_removal text rules) := by
  constructor
  · simp [enforce_pii_removal, redact_spec, redactOrder, substFor, h]
  · intro text' rules' h1 h2
    rw [h1, h2]

/-- Witness for `redact_applies_rules_in_fixed_order` on the spec's
end-to-end scenario text and the modelled enabled rule set. -/
theorem redact_applies_rules_in_fixed_order_witness :
    demoRules.pii_removal.enabled = true ∧
    enforce_pii_removal "Contact John Doe at john@example.com or 555-123-4567".toList demoRules =
      redact_spec "Contact John Doe at john@example.com or 555-123-4567".toList demoRules :=
  ⟨rfl,
   (redact_applies_rules_in_fixed_order
     "Contact John Doe at john@example.com or 555-123-4567".toList demoRules rfl).1⟩

/-- C5: redaction restricted to a disabled rule set is the identity
function on every text. -/
theorem redact_disabled_is_identity (text : List Char) (rules : PrivacyRules)
    (h : rules.pii_removal.enabled = false) :
    enforce_pii_removal text rules = text := by
  simp [enforce_pii_removal, h]

/-- Witness for `redact_disabled_is_identity` at a concrete text and the
modelled disabled rule set. -/
theorem redact_disabled_is_identity_witness :
    demoRulesDisabled.pii_removal.enabled = false ∧
    enforce_pii_removal "Contact jane@example.com or 555-123-4567".toList demoRulesDisabled =
      "Contact jane@example.com or 555-123-4567".toList :=
  ⟨rfl,
   redact_disabled_is_identity "Contact jane@example.com or 555-123-4567".toList
     demoRulesDisabled rfl⟩

/-- C9: the audit step is advisory only — for every analyzer, transcript
and validation setting, running `analyze` with auditing enabled returns
the same result as running it with auditing disabled, and the audit
summary that is emitted is computed on the original pre-redaction
transcript. -/
theorem audit_is_advisory (an : InterviewAnalyzer) (t : List Char) (v : Bool) :
    (an.analyze t true v).result = (an.analyze t false v).result ∧
    (an.analyze t true v).auditReport =
      some (audit_pii_in_transcript t an.privacy_rules) ∧
    (an.analyze t false v).auditReport = none := by
  unfold InterviewAnalyzer.analyze
  cases v
  · simp
  · cases hval : validate_no_pii (an.agentRun (enforce_pii_removal t an.privacy_rules))
      an.privacy_rules <;> simp [hval]

/-- C10: the modelled case-sensitivity asymmetry of
`src/discovery/privacy.py` — redaction matches the email pattern with
`re.IGNORECASE` while audit counting and post-extraction validation match
it case-sensitively: an upper-case email address is replaced by redaction,
audited with an email count of 0 on the same text, and passes validation
inside a record. -/
theorem case_sensitivity_asymmetry :
    enforce_pii_removal upperEmailText demoRules = "Contact [EMAIL] today".toList ∧
    (audit_pii_in_transcript upperEmailText demoRules).lookup "Emails" = some 0 ∧
    validate_no_pii upperInsights demoRules = Except.ok true := by
  refine ⟨by decide, by decide, by decide⟩

/-- C1: evaluating the embedded `/demo/run` handler at `mode=cached`
against an empty cache store (no cache file): the pipeline falls through
to live computation — the external extraction capability is invoked and a
live (`cached: false`) response is returned instead of an explicit miss
signal. -/
theorem cached_mode_miss_falls_through_to_live :
    (run_demo demoAnalyzer demoFiles none true 0 Mode.cached "sanitized"
      (some "sess")).extractionInvoked = true ∧
    (run_demo demoAnalyzer demoFiles none true 0 Mode.cached "sanitized"
      (some "sess")).response.toOption.map DemoResponse.cached = some false := by
  refine ⟨by decide, by decide⟩

/-- C2: for every rule set and every record whose canonical serialization
contains a match of the enabled email, phone or employee_id pattern,
`validate_no_pii` raises the blocking `PII VALIDATION FAILED` error (a
dedicated failure value, not an ordinary result), the error carries a
logged issue line for every category found, and `analyze` with validation
requested propagates that error instead of returning the record to any
caller — no partial-redact-and-continue fallback. -/
theorem validation_fail_closed (rules : PrivacyRules) (insights : InterviewInsights)
    (hen : rules.pii_removal.enabled = true)
    (hfound :
      pySearch rules.pii_removal.patterns.email (model_dump_json insights).toList = true ∨
      pySearch rules.pii_removal.patterns.phone (model_dump_json insights).toList = true ∨
      pySearch rules.pii_removal.patterns.employee_id (model_dump_json insights).toList = true) :
    validate_no_pii insights rules =
      Except.error ⟨validationIssues insights rules,
        "PII VALIDATION FAILED - output blocked for compliance"⟩ ∧
    (pySearch rules.pii_removal.patterns.email (model_dump_json insights).toList = true →
      "EMAIL detected in output" ∈ validationIssues insights rules) ∧
    (pySearch rules.pii_removal.patterns.phone (model_dump_json insights).toList = true →
      "PHONE NUMBER detected in output" ∈ validationIssues insights rules) ∧
    (pySearch rules.pii_removal.patterns.employee_id (model_dump_json insights).toList = true →
      "EMPLOYEE ID detected in output" ∈ validationIssues insights rules) ∧
    (∀ (an : InterviewAnalyzer) (transcript : List Char) (b : Bool),
      an.privacy_rules = rules →
      an.agentRun (enforce_pii_removal transcript rules) = insights →
      (an.analyze transcript b true).result =
        Except.error ⟨validationIssues insights rules,
          "PII VALIDATION FAILED - output blocked for compliance"⟩) := by
  have hne : validationIssues insights rules ≠ [] := by
    rcases hfound with h | h | h <;>
      (simp only [String.toList] at h; simp [validationIssues, h])
  have hval : validate_no_pii insights rules =
      Except.error ⟨validationIssues insights rules,
        "PII VALIDATION FAILED - output blocked for compliance"⟩ := by
    unfold validate_no_pii
    rw [if_neg hne]
  refine ⟨hval, ?_, ?_, ?_, ?_⟩
  · intro h
    simp only [String.toList] at h
    simp [validationIssues, h]
  · intro h
    simp only [String.toList] at h
    simp [validationIssues, h]
  · intro h
    simp only [String.toList] at h
    simp [validationIssues, h]
  · intro an transcript b h1 h2
    simp only [InterviewAnalyzer.analyze, h1, h2, hval, if_pos]

/-- Witness for `validation_fail_closed`: the modelled enabled rule set and
a record carrying the literal `jane@example.com` in an evidence quote. -/
theorem validation_fail_closed_witness :
    demoRules.pii_removal.enabled = true ∧
    pySearch demoRules.pii_removal.patterns.email (model_dump_json janeInsights).toList = true ∧
    validate_no_pii janeInsights demoRules =
      Except.error ⟨validationIssues janeInsights demoRules,
        "PII VALIDATION FAILED - output blocked for compliance"⟩ :=
  ⟨rfl, by decide,
   (validation_fail_closed demoRules janeInsights rfl (Or.inl (by decide))).1⟩

/-- A text constructed from interleaved filler segments with one
occurrence of the word `w` planted between consecutive fillers: `N + 1`
fillers yield exactly `N` planted non-overlapping occurrences. -/
def plantOcc (w : List Char) : List (List Char) → List Char
  | [] => []
  | [f] => f
  | f :: fs => f ++ w ++ plantOcc w fs

/-- Skipping over a consumed span: scanning `pre ++ rest` with `pre.length`
characters left to skip continues exactly as scanning `rest` afresh. -/
theorem pyCountGo_skip (m : List Char → Option Nat) (pre : List Char) :
    ∀ rest : List Char, pyCountGo m (pre ++ rest) pre.length = pyCountGo m rest 0 := by
  induction pre with
  | nil => intro rest; rfl
  | cons c pre ih =>
    intro rest
    show pyCountGo m (pre ++ rest) pre.length = pyCountGo m rest 0
    exact ih rest

/-- A literal pattern cannot match at a position whose first character
does not occur in the word. -/
theorem litPat_matchAt_cons_none {w : List Char} {c : Char} (l : List Char)
    (hw : w ≠ []) (hc : c ∉ w) : (litPat w).matchAt (c :: l) = none := by
  obtain ⟨a, w', rfl⟩ := List.exists_cons_of_ne_nil hw
  have hnp : ¬(a :: w').isPrefixOf (c :: l) = true := by
    rw [List.isPrefixOf_iff_prefix, List.cons_prefix_cons]
    intro hand
    rw [hand.1] at hc
    exact hc (List.mem_cons_self _ _)
  show (if (a :: w').isPrefixOf (c :: l) then some (a :: w').length else none) = none
  rw [if_neg hnp]

/-- Scanning step with no match at the head position. -/
theorem pyCountGo_cons_none {m : List Char → Option Nat} {c : Char} {l : List Char}
    (h : m (c :: l) = none) : pyCountGo m (c :: l) 0 = pyCountGo m l 0 := by
  rw [pyCountGo, h]

/-- Scanning across a filler whose characters do not occur in the word
finds nothing before reaching the rest. -/
theorem pyCountGo_filler {w : List Char} (hw : w ≠ []) :
    ∀ (f rest : List Char), (∀ c ∈ f, c ∉ w) →
      pyCountGo (litPat w).matchAt (f ++ rest) 0 =
        pyCountGo (litPat w).matchAt rest 0 := by
  intro f
  induction f with
  | nil => intro rest _; rfl
  | cons c f ih =>
    intro rest hf
    have hc : c ∉ w := hf c (List.mem_cons_self c f)
    have hnone := litPat_matchAt_cons_none (f ++ rest) hw hc
    rw [List.cons_append, pyCountGo_cons_none hnone]
    exact ih rest fun x hx => hf x (List.mem_cons_of_mem c hx)

/-- Scanning at a planted occurrence of the word counts it once and
resumes right after it. -/
theorem pyCountGo_block {w : List Char} (hw : w ≠ []) (rest : List Char) :
    pyCountGo (litPat w).matchAt (w ++ rest) 0 =
      1 + pyCountGo (litPat w).matchAt rest 0 := by
  obtain ⟨a, w', rfl⟩ := List.exists_cons_of_ne_nil hw
  have hm : (litPat (a :: w')).matchAt (a :: (w' ++ rest)) = some (w'.length + 1) := by
    have hp : (a :: w').isPrefixOf ((a :: w') ++ rest) = true := by
      rw [List.isPrefixOf_iff_prefix]
      exact List.prefix_append _ _
    simp only [List.cons_append] at hp
    show (if (a :: w').isPrefixOf (a :: (w' ++ rest)) then some (a :: w').length else none) =
      some (w'.length + 1)
    rw [if_pos hp]
    rfl
  rw [List.cons_append, pyCountGo, hm]
  show 1 + pyCountGo (litPat (a :: w')).matchAt (w' ++ rest) w'.length =
    1 + pyCountGo (litPat (a :: w')).matchAt rest 0
  rw [pyCountGo_skip]

/-- Greedy non-overlapping count of a planted construction: `N + 1`
character-disjoint fillers around `N` planted occurrences count exactly
`N`. -/
theorem pyCount_plantOcc {w : List Char} (hw : w ≠ []) :
    ∀ fs : List (List Char), fs ≠ [] → (∀ f ∈ fs, ∀ c ∈ f, c ∉ w) →
      pyCount (litPat w) (plantOcc w fs) = fs.length - 1 := by
  have h0 : pyCountGo (litPat w).matchAt [] 0 = 0 := by
    obtain ⟨a, w', rfl⟩ := List.exists_cons_of_ne_nil hw
    rfl
  intro fs
  induction fs with
  | nil => intro h; exact absurd rfl h
  | cons f fs ih =>
    intro _ hdisj
    have hf : ∀ c ∈ f, c ∉ w := hdisj f (List.mem_cons_self f fs)
    cases fs with
    | nil =>
      show pyCountGo (litPat w).matchAt f 0 = 0
      rw [← List.append_nil f, pyCountGo_filler hw f [] hf, h0]
    | cons f2 fs2 =>
      have hdisj2 : ∀ g ∈ f2 :: fs2, ∀ c ∈ g, c ∉ w :=
        fun g hg => hdisj g (List.mem_cons_of_mem f hg)
      have hrec := ih (List.cons_ne_nil f2 fs2) hdisj2
      unfold pyCount at hrec
      show pyCountGo (litPat w).matchAt ((f ++ w) ++ plantOcc w (f2 :: fs2)) 0 =
        (f :: f2 :: fs2).length - 1
      rw [List.append_assoc, pyCountGo_filler hw f _ hf, pyCountGo_block hw, hrec]
      simp only [List.length_cons]
      omega

/-- C8: for every rule set whose pattern for a category is the literal
word `w`, and every text constructed as `N + 1` fillers (character-disjoint
from `w`) interleaved with `N` planted occurrences of `w`, the audit
reports exactly `N` for that category — the count of all non-overlapping
pattern matches. -/
theorem audit_counts_planted_occurrences (rules : PrivacyRules) (cat : PiiCategory)
    (w : List Char) (fs : List (List Char))
    (hen : rules.pii_removal.enabled = true)
    (hw : w ≠ []) (hpat : patternFor rules cat = litPat w)
    (hfs : fs ≠ []) (hdisj : ∀ f ∈ fs, ∀ c ∈ f, c ∉ w) :
    (audit_pii_in_transcript (plantOcc w fs) rules).lookup (auditLabel cat) =
      some (fs.length - 1) := by
  have hcount := pyCount_plantOcc hw fs hfs hdisj
  cases cat <;>
    (simp only [patternFor] at hpat;
     simp [audit_pii_in_transcript, auditLabel, List.lookup, hpat, hcount])

/-- A rule set whose patterns are all literal matchers, for exercising the
audit counting theorem. -/
def litRules : PrivacyRules :=
  ⟨⟨true,
    ⟨litPat "tok".toList, litPat "ib".toList, litPat "ab".toList,
     litPat "ph".toList, litPat "id".toList, litPat "nm".toList⟩,
    demoReplacements⟩⟩

/-- Witness for `audit_counts_planted_occurrences`: three fillers around
two planted occurrences of the email-category literal `ab` audit as an
email count of 2. -/
theorem audit_counts_planted_occurrences_witness :
    patternFor litRules PiiCategory.email = litPat "ab".toList ∧
    (audit_pii_in_transcript
      (plantOcc "ab".toList ["xx".toList, "yy".toList, "zz".toList])
      litRules).lookup (auditLabel PiiCategory.email) = some 2 :=
  ⟨rfl,
   audit_counts_planted_occurrences litRules PiiCategory.email "ab".toList
     ["xx".toList, "yy".toList, "zz".toList] rfl (by decide) rfl (by decide) (by decide)⟩

/-- C6: a cache read is treated as a hit only when the `key` field inside
the stored entry equals the requested key — a stored entry whose `key`
field agrees (and which carries insights) is served as a cached response
without invoking extraction, and a stored entry whose `key` field
disagrees is treated as a miss, after which the pipeline runs live. -/
theorem cache_hit_requires_key_equality (an : InterviewAnalyzer)
    (files : String → Option String) (d : CacheData) (writeOk : Bool) (now : Nat)
    (mode : Mode) (variant : String) (session : Option String) (text : String)
    (hmode : mode = Mode.auto ∨ mode = Mode.cached)
    (hsess : ¬session.getD "" = "")
    (hload : load_demo_text files variant = Except.ok text) :
    (d.key = some (cache_key_for text "" variant) → d.insights.isSome →
      (run_demo an files (some (Except.ok d)) writeOk now mode variant
        session).response.toOption.map DemoResponse.cached = some true ∧
      (run_demo an files (some (Except.ok d)) writeOk now mode variant
        session).extractionInvoked = false) ∧
    (d.key ≠ some (cache_key_for text "" variant) →
      (run_demo an files (some (Except.ok d)) writeOk now mode variant
        session).extractionInvoked = true) := by
  constructor
  · intro hk hins
    obtain ⟨ins, hins'⟩ := Option.isSome_iff_exists.mp hins
    have hhit : cacheLookup (some (Except.ok d)) mode (cache_key_for text "" variant) =
        some ins := by
      simp [cacheLookup, hmode, hk, hins']
    constructor <;> simp [run_demo, hsess, hload, hhit, Except.toOption]
  · intro hk
    have hmiss : cacheLookup (some (Except.ok d)) mode (cache_key_for text "" variant) =
        none := by
      simp [cacheLookup, hmode, hk]
    cases hra : run_analysis an text.toList <;>
      (simp only [String.toList] at hra; simp [run_demo, hsess, hload, hmiss, hra])

/-- A stored cache entry whose `key` field does not match the requested
key of the demo text. -/
def staleData : CacheData := ⟨some "deadbeefdeadbeef", some emptyInsights⟩

/-- Witness for `cache_hit_requires_key_equality`: a stored entry with a
non-matching `key` field is treated as a miss under `mode=auto` and the
pipeline runs live. -/
theorem cache_hit_requires_key_equality_witness :
    load_demo_text demoFiles "sanitized" = Except.ok "hello world" ∧
    staleData.key ≠ some (cache_key_for "hello world" "" "sanitized") ∧
    (run_demo demoAnalyzer demoFiles (some (Except.ok staleData)) true 0 Mode.auto
      "sanitized" (some "sess")).extractionInvoked = true :=
  ⟨by decide, by decide,
   (cache_hit_requires_key_equality demoAnalyzer demoFiles staleData true 0 Mode.auto
     "sanitized" (some "sess") "hello world" (Or.inl rfl) (by decide) (by decide)).2
     (by decide)⟩

/-- C7: the HTTP response of `run_demo` does not depend on whether the
cache write succeeds; in particular on the live path (`mode=live`) the
already-computed record is returned to the caller regardless of the cache
write outcome — write failures are non-fatal. -/
theorem cache_write_failure_nonfatal (an : InterviewAnalyzer)
    (files : String → Option String) (cacheRead : Option (Except Unit CacheData))
    (now : Nat) (mode : Mode) (variant : String) (session : Option String) :
    (∀ w1 w2 : Bool,
      (run_demo an files cacheRead w1 now mode variant session).response =
        (run_demo an files cacheRead w2 now mode variant session).response) ∧
    (∀ (text : String) (ins : InterviewInsights) (w : Bool),
      mode = Mode.live →
      ¬session.getD "" = "" →
      load_demo_text files variant = Except.ok text →
      run_analysis an text.toList = Except.ok ins →
      (run_demo an files cacheRead w now mode variant session).response =
        Except.ok ⟨"demo-" ++ variant ++ "-" ++ cache_key_for text "" variant, variant,
          false,
          ["Reading transcript", "Extracting insights", "Validating schema",
           "Preparing export", "Done"], ins⟩) := by
  constructor
  · intro w1 w2
    by_cases hs : session.getD "" = ""
    · simp [run_demo, hs]
    · cases hl : load_demo_text files variant with
      | error e => simp [run_demo, hs, hl]
      | ok text =>
        cases hh : cacheLookup cacheRead mode (cache_key_for text "" variant) with
        | some ins => simp [run_demo, hs, hl, hh]
        | none =>
          cases hra : run_analysis an text.toList with
          | error e =>
            simp only [String.toList] at hra
            simp [run_demo, hs, hl, hh, hra]
          | ok ins =>
            simp only [String.toList] at hra
            simp [run_demo, hs, hl, hh, hra]
  · intro text ins w hlive hs hl hra
    have hh : cacheLookup cacheRead mode (cache_key_for text "" variant) = none := by
      simp [cacheLookup, hlive]
    simp only [String.toList] at hra
    simp [run_demo, hs, hl, hh, hra]

/-- Witness for `cache_write_failure_nonfatal`: a live run of the demo
analyzer returns the computed record even when the cache write fails. -/
theorem cache_write_failure_nonfatal_witness :
    run_analysis demoAnalyzer "hello world".toList = Except.ok emptyInsights ∧
    (run_demo demoAnalyzer demoFiles none false 0 Mode.live "sanitized"
      (some "sess")).response =
      Except.ok ⟨"demo-" ++ "sanitized" ++ "-" ++ cache_key_for "hello world" "" "sanitized",
        "sanitized", false,
        ["Reading transcript", "Extracting insights", "Validating schema",
         "Preparing export", "Done"], emptyInsights⟩ :=
  ⟨by decide,
   (cache_write_failure_nonfatal demoAnalyzer demoFiles none 0 Mode.live "sanitized"
     (some "sess")).2 "hello world" emptyInsights false rfl (by decide) (by decide)
     (by decide)⟩

end Discovery
